import Mathlib

/-!
Shallow embedding of the user-management web client's core logic
(`lib/api.js` and `components/UserForm.js`) and proofs about it.

JavaScript modelling conventions used throughout:
* machine strings are Lean `String`s (ASCII/Unicode code points; JS UTF-16
  length and Lean char length agree on the inputs considered here);
* `undefined`/`null`/numbers/strings are modelled by an explicit sum type;
  JS numbers are modelled as integers (no floats appear in the embedded code);
* JS truthiness is modelled per type (empty string and zero are falsy);
* JS `Date` objects are modelled by their UTC timestamp in milliseconds;
  `getFullYear` is modelled as the UTC year (timezone offset 0);
* thrown errors are modelled with `Except`, carrying the error message.
-/

/-! ### JS primitive values (for query parameters and ids) -/

/-- A JS primitive value as it occurs in query-parameter maps and ids:
`undefined`, `null`, a number or a string. -/
inductive JSPrim where
  | undefined
  | null
  | num (n : Int)
  | str (s : String)
deriving DecidableEq

/-- JS truthiness test (`!v` in the source): `undefined`, `null`, `0` and
`""` are falsy. -/
def jsPrimFalsy : JSPrim → Bool
  | .undefined => true
  | .null => true
  | .num n => n == 0
  | .str s => s == ""

/-- JS string conversion as performed by template literals. -/
def jsPrimToString : JSPrim → String
  | .undefined => "undefined"
  | .null => "null"
  | .num n => toString n
  | .str s => s

/-- JS `a || b` on primitive values: `b` when `a` is falsy, else `a`. -/
def jsOr (a b : JSPrim) : JSPrim := if jsPrimFalsy a then b else a

/-! ### JS whitespace and `String.prototype.trim` -/

/-- The common JS whitespace characters (the ones `\s` and `trim` treat as
whitespace that can occur in the data considered here). -/
def jsIsWS (c : Char) : Bool :=
  c == ' ' || c == '\t' || c == '\n' || c == '\r' || c == '\x0b' || c == '\x0c'

/-- JS `s.trim()`: strip leading and trailing whitespace. -/
def jsTrim (s : String) : String :=
  ⟨((s.data.dropWhile jsIsWS).reverse.dropWhile jsIsWS).reverse⟩

/-! ### JS `Date` objects -/

/-- A JS `Date` object, identified with its timestamp: milliseconds since
the Unix epoch, UTC. Only valid dates are modelled. -/
structure JSDate where
  ms : Int
deriving DecidableEq

/-- Milliseconds per day. -/
def msPerDay : Int := 86400000

/-- Proleptic-Gregorian calendar date (year, month, day) of a day count
relative to 1970-01-01, as computed by the ECMAScript date functions. -/
def civilFromDays (z0 : Int) : Int × Nat × Nat :=
  let z := z0 + 719468
  let era := Int.fdiv z 146097
  let doe := (z - era * 146097).toNat
  let yoe := (doe - doe / 1460 + doe / 36524 - doe / 146096) / 365
  let doy := doe - (365 * yoe + yoe / 4 - yoe / 100)
  let mp := (5 * doy + 2) / 153
  let d := doy - (153 * mp + 2) / 5 + 1
  let m := if mp < 10 then mp + 3 else mp - 9
  ((yoe : Int) + era * 400 + (if m ≤ 2 then 1 else 0), m, d)

/-- The decimal digit character for `n % 10`. -/
def digitChar (n : Nat) : Char :=
  match n % 10 with
  | 0 => '0' | 1 => '1' | 2 => '2' | 3 => '3' | 4 => '4'
  | 5 => '5' | 6 => '6' | 7 => '7' | 8 => '8' | _ => '9'

/-- Two-digit zero-padded decimal rendering (for `n < 100`). -/
def pad2 (n : Nat) : String := ⟨[digitChar (n / 10), digitChar n]⟩

/-- Three-digit zero-padded decimal rendering (for `n < 1000`). -/
def pad3 (n : Nat) : String := ⟨[digitChar (n / 100), digitChar (n / 10), digitChar n]⟩

/-- Four-digit zero-padded decimal rendering (for `n < 10000`). -/
def pad4 (n : Nat) : String :=
  ⟨[digitChar (n / 1000), digitChar (n / 100), digitChar (n / 10), digitChar n]⟩

/-- Six-digit zero-padded decimal rendering (for `n < 1000000`). -/
def pad6 (n : Nat) : String :=
  ⟨[digitChar (n / 100000), digitChar (n / 10000), digitChar (n / 1000),
    digitChar (n / 100), digitChar (n / 10), digitChar n]⟩

/-- The year field of an ISO date-time string as produced by ECMAScript
`Date.prototype.toISOString`: four digits for years 0–9999, otherwise the
expanded-year form, a sign followed by six digits. -/
def yearString (y : Int) : String :=
  if 0 ≤ y ∧ y ≤ 9999 then pad4 y.toNat
  else if y < 0 then "-" ++ pad6 (-y).toNat
  else "+" ++ pad6 y.toNat

/-- The UTC year of a date (the model of `getFullYear`, taken with
timezone offset 0). -/
def getFullYear (d : JSDate) : Int := (civilFromDays (Int.fdiv d.ms msPerDay)).1

/-- The UTC calendar-date part of `toISOString` output. -/
def utcDateString (d : JSDate) : String :=
  let t := civilFromDays (Int.fdiv d.ms msPerDay)
  yearString t.1 ++ "-" ++ pad2 t.2.1 ++ "-" ++ pad2 t.2.2

/-- Model of ECMAScript `Date.prototype.toISOString`:
`YYYY-MM-DDTHH:mm:ss.sssZ` with the UTC calendar date and time. -/
def toISOString (d : JSDate) : String :=
  let tod := (Int.emod d.ms msPerDay).toNat
  utcDateString d ++ "T" ++ pad2 (tod / 3600000) ++ ":" ++ pad2 (tod % 3600000 / 60000)
    ++ ":" ++ pad2 (tod % 60000 / 1000) ++ "." ++ pad3 (tod % 1000) ++ "Z"

/-- Model of JS `s.split(c)[0]`: the longest prefix of `s` before the first
occurrence of `c` (the whole string when `c` does not occur). -/
def jsSplitHead (s : String) (c : Char) : String :=
  ⟨s.data.takeWhile (fun x => !(x == c))⟩

/-! ### `lib/api.js`: `handleResponse` -/

/-- An HTTP response as seen by `handleResponse` after `response.json()`:
the status code and the parsed body `{ error, payload }`. The payload is
modelled as an optional string (`none` = the `payload` key is absent). -/
structure ApiResponse where
  status : Nat
  error : Bool
  payload : Option String
deriving DecidableEq

/-- `Response.ok`: status in the 200–299 success range. -/
def respOk (status : Nat) : Bool := 200 ≤ status && status < 300

/-- JS `p || d` for an optional string `p`: the default `d` when `p` is
absent or the empty string (both falsy), else the string itself. -/
def jsOrStr : Option String → String → String
  | some s, d => if s = "" then d else s
  | none, d => d

/-- The generic HTTP-error message built by `handleResponse`. -/
def httpErrMsg (status : Nat) : String := "HTTP error! status: " ++ toString status

/-- `handleResponse` (lib/api.js): throw on non-2xx status or on a body
with `error: true`, otherwise return the body's payload. -/
def handleResponse (r : ApiResponse) : Except String (Option String) :=
  if !respOk r.status then
    .error (jsOrStr r.payload (httpErrMsg r.status))
  else if r.error then
    .error (jsOrStr r.payload "An error occurred")
  else
    .ok r.payload

/-! ### `lib/api.js`: `validateUserData` -/

/-- The user-record argument of `validateUserData`: each field is a string
or absent (`undefined`). -/
structure UserData where
  name : Option String := none
  email : Option String := none
  aboutYou : Option String := none
  birthday : Option String := none
  mobileNumber : Option String := none
  country : Option String := none
deriving DecidableEq

/-- `!v || jsTrim(v).length < k` for an optional string field. -/
def minLenFails (o : Option String) (k : Nat) : Bool :=
  match o with
  | none => true
  | some s => (jsTrim s).length < k

/-- The email pattern `^[^\s@]+@[^\s@]+\.[^\s@]+$`: exactly one `@`, a
nonempty local part and a domain with an interior dot, no whitespace or
further `@` anywhere. -/
def emailTest (s : String) : Bool :=
  match s.data.splitOn '@' with
  | [lo, dom] =>
    !lo.isEmpty && lo.all (fun c => !jsIsWS c) && dom.all (fun c => !jsIsWS c) &&
      (dom.enum.any fun p => p.2 == '.' && 0 < p.1 && p.1 + 1 < dom.length)
  | _ => false

/-- `!userData.email || !emailRegex.test(userData.email)`. -/
def emailFails (o : Option String) : Bool :=
  match o with
  | none => true
  | some s => s == "" || !emailTest s

/-- `!userData.birthday`. -/
def presenceFails (o : Option String) : Bool :=
  match o with
  | none => true
  | some s => s == ""

/-- Whether a field of `validateUserData` is checked: always in create
mode, and in update mode only when the field is present. -/
def fieldChecked (isUpdate : Bool) (o : Option String) : Bool :=
  !isUpdate || o.isSome

/-- The six check conditions of `validateUserData`, in source order. -/
def nameCheck (d : UserData) (u : Bool) : Bool := fieldChecked u d.name && minLenFails d.name 2

def emailCheck (d : UserData) (u : Bool) : Bool := fieldChecked u d.email && emailFails d.email

def aboutYouCheck (d : UserData) (u : Bool) : Bool :=
  fieldChecked u d.aboutYou && minLenFails d.aboutYou 10

def birthdayCheck (d : UserData) (u : Bool) : Bool :=
  fieldChecked u d.birthday && presenceFails d.birthday

def mobileCheck (d : UserData) (u : Bool) : Bool :=
  fieldChecked u d.mobileNumber && minLenFails d.mobileNumber 10

def countryCheck (d : UserData) (u : Bool) : Bool :=
  fieldChecked u d.country && minLenFails d.country 2

/-- `validateUserData` (lib/api.js): collect the violation messages of the
six per-field checks, in source order. -/
def validateUserData (d : UserData) (isUpdate : Bool) : List String :=
  (if nameCheck d isUpdate then ["Name is required and must be at least 2 characters"] else [])
    ++ (if emailCheck d isUpdate then ["Valid email is required"] else [])
    ++ (if aboutYouCheck d isUpdate then
          ["About You is required and must be at least 10 characters"] else [])
    ++ (if birthdayCheck d isUpdate then ["Birthday is required"] else [])
    ++ (if mobileCheck d isUpdate then ["Mobile number is required"] else [])
    ++ (if countryCheck d isUpdate then ["Country is required"] else [])

/-! ### `lib/api.js`: `buildQueryString` -/

/-- The characters `encodeURIComponent` leaves unescaped:
`A-Z a-z 0-9 - _ . ! ~ * ' ( )`. -/
def uriUnreserved (c : Char) : Bool :=
  c.isAlpha || c.isDigit || c == '-' || c == '_' || c == '.' || c == '!' ||
    c == '~' || c == '*' || c == '\'' || c == '(' || c == ')'

/-- Uppercase hexadecimal digit for `n < 16`. -/
def hexDigit (n : Nat) : Char :=
  if n < 10 then digitChar n
  else if n = 10 then 'A' else if n = 11 then 'B' else if n = 12 then 'C'
  else if n = 13 then 'D' else if n = 14 then 'E' else 'F'

/-- Percent-escape of one byte: `%XX`. -/
def pctByte (b : Nat) : List Char := ['%', hexDigit (b / 16), hexDigit (b % 16)]

/-- The UTF-8 bytes of a character. -/
def utf8Bytes (c : Char) : List Nat :=
  let n := c.toNat
  if n < 0x80 then [n]
  else if n < 0x800 then [0xC0 + n / 64, 0x80 + n % 64]
  else if n < 0x10000 then [0xE0 + n / 4096, 0x80 + n / 64 % 64, 0x80 + n % 64]
  else [0xF0 + n / 262144, 0x80 + n / 4096 % 64, 0x80 + n / 64 % 64, 0x80 + n % 64]

/-- Model of JS `encodeURIComponent`: unreserved characters pass through,
everything else is UTF-8 percent-encoded. -/
def encodeURIComponent (s : String) : String :=
  ⟨(s.data.map fun c =>
      if uriUnreserved c then [c] else (utf8Bytes c).map pctByte |>.flatten).flatten⟩

/-- The filter of `buildQueryString`:
`value !== undefined && value !== null && value !== ""` — note the strict
comparisons, so the number `0` is kept. This is the predicate for dropping. -/
def dropQueryVal : JSPrim → Bool
  | .undefined => true
  | .null => true
  | .num _ => false
  | .str s => s == ""

/-- One encoded `key=value` pair. -/
def encodePair (p : String × JSPrim) : String :=
  encodeURIComponent p.1 ++ "=" ++ encodeURIComponent (jsPrimToString p.2)

/-- Model of JS `Array.prototype.join(sep)`. -/
def joinSep (sep : String) : List String → String
  | [] => ""
  | [x] => x
  | x :: y :: xs => x ++ sep ++ joinSep sep (y :: xs)

/-- `buildQueryString` (lib/api.js): drop empty-ish values, encode the
remaining pairs, join with `&`, and prefix with `?` when the joined string
is truthy (nonempty). -/
def buildQueryString (params : List (String × JSPrim)) : String :=
  let filteredParams :=
    joinSep "&" ((params.filter fun p => !dropQueryVal p.2).map encodePair)
  if filteredParams = "" then "" else "?" ++ filteredParams

/-! ### `lib/api.js`: the API client operations -/

/-- The configured base URL (`NEXT_PUBLIC_API_URL` unset → the default). -/
def API_BASE_URL : String := "http://localhost:3000"

/-- An HTTP request as constructed by the client: method and full URL. -/
structure HttpRequest where
  method : String
  url : String
deriving DecidableEq

/-- The filters argument of `getUsers`; absent fields are `undefined`. -/
structure Filters where
  name : JSPrim := .undefined
  email : JSPrim := .undefined
  country : JSPrim := .undefined
  fromDate : JSPrim := .undefined
  toDate : JSPrim := .undefined
  search : JSPrim := .undefined
deriving DecidableEq

/-- The pagination argument of `getUsers`; absent fields are `undefined`. -/
structure Pagination where
  page : JSPrim := .undefined
  limit : JSPrim := .undefined
  sortBy : JSPrim := .undefined
  sortOrder : JSPrim := .undefined
deriving DecidableEq

/-- The `params` object literal built inside `getUsers`, in insertion
order: the six filter keys, then the pagination keys with `||`-defaults. -/
def getUsersParams (f : Filters) (p : Pagination) : List (String × JSPrim) :=
  [("name", f.name), ("email", f.email), ("country", f.country),
   ("fromDate", f.fromDate), ("toDate", f.toDate), ("search", f.search),
   ("page", jsOr p.page (.num 1)), ("limit", jsOr p.limit (.num 10)),
   ("sortBy", jsOr p.sortBy (.str "createdAt")),
   ("sortOrder", jsOr p.sortOrder (.str "DESC"))]

/-- The GET request issued by `getUsers`. -/
def getUsersRequest (f : Filters) (p : Pagination) : HttpRequest :=
  ⟨"GET", API_BASE_URL ++ "/api/users" ++ buildQueryString (getUsersParams f p)⟩

/-- `getUsers` run against a server modelled as a function from the issued
request to its response; the response goes through `handleResponse`. -/
def getUsersRun (f : Filters) (p : Pagination) (server : HttpRequest → ApiResponse) :
    Except String (Option String) :=
  handleResponse (server (getUsersRequest f p))

/-- `getUserById` (lib/api.js), request-construction phase: fail fast when
the id is falsy, otherwise build the GET request. -/
def getUserById (id : JSPrim) : Except String HttpRequest :=
  if jsPrimFalsy id then .error "User ID is required"
  else .ok ⟨"GET", API_BASE_URL ++ "/api/users/" ++ jsPrimToString id⟩

/-- `getUserById` run against a modelled server: no request is issued when
the id check fails; otherwise the response goes through `handleResponse`. -/
def getUserByIdRun (id : JSPrim) (server : HttpRequest → ApiResponse) :
    Except String (Option String) :=
  match getUserById id with
  | .error e => .error e
  | .ok req => handleResponse (server req)

/-! ### `lib/api.js`: `formatDateForAPI` -/

/-- The possible input shapes of `formatDateForAPI`. -/
inductive DateInput where
  | undefined
  | null
  | num (n : Int)
  | str (s : String)
  | date (d : JSDate)
deriving DecidableEq

/-- JS truthiness on `DateInput` (`Date` objects are always truthy). -/
def dateInputFalsy : DateInput → Bool
  | .undefined => true
  | .null => true
  | .num n => n == 0
  | .str s => s == ""
  | .date _ => false

/-- The pattern `^\d{4}-\d{2}-\d{2}$`. -/
def isDateFormat (s : String) : Bool :=
  match s.data with
  | [y1, y2, y3, y4, c1, m1, m2, c2, d1, d2] =>
    y1.isDigit && y2.isDigit && y3.isDigit && y4.isDigit && c1 == '-' &&
      m1.isDigit && m2.isDigit && c2 == '-' && d1.isDigit && d2.isDigit
  | _ => false

/-- `formatDateForAPI` (lib/api.js): `null` for falsy input; a string
already in `YYYY-MM-DD` form unchanged; for a `Date`, the date part of its
ISO string; `null` for anything else. -/
def formatDateForAPI (v : DateInput) : Option String :=
  if dateInputFalsy v then none
  else match v with
    | .str s => if isDateFormat s then some s else none
    | .date d => some (jsSplitHead (toISOString d) 'T')
    | _ => none

/-- Re-inject `formatDateForAPI`'s result as a JS value (`null` or a
string), for composing the function with itself. -/
def reinject : Option String → DateInput
  | none => .null
  | some s => .str s

/-! ### `components/UserForm.js`: field validation -/

/-- The keys of the form's error map: the six fields plus `general`. -/
inductive ErrKey where
  | name | aboutYou | birthday | mobileNumber | email | country | general
deriving DecidableEq

/-- The six form fields in the insertion order of the `formData` object
(the order `Object.keys(formData)` iterates in). -/
def fieldOrder : List ErrKey :=
  [.name, .aboutYou, .birthday, .mobileNumber, .email, .country]

/-- A form field's value: a string, or (for `birthday`) a `Date` or
`null`. -/
inductive FieldValue where
  | str (s : String)
  | date (d : Option JSDate)
deriving DecidableEq

/-- The pattern `^[a-zA-Z\s]+$` (letters and whitespace, nonempty). -/
def lettersSpacesTest (s : String) : Bool :=
  !s.data.isEmpty && s.data.all fun c => c.isAlpha || jsIsWS c

/-- Character class `[\d\s\-\(\)]` of the mobile-number pattern. -/
def phoneChar (c : Char) : Bool :=
  c.isDigit || jsIsWS c || c == '-' || c == '(' || c == ')'

/-- The pattern `^[+]?[\d\s\-\(\)]{10,15}$`: an optional leading `+`
followed by 10 to 15 characters of the phone class. -/
def phoneTest (s : String) : Bool :=
  let l := match s.data with
    | '+' :: rest => rest
    | l => l
  10 ≤ l.length && l.length ≤ 15 && l.all phoneChar

/-- `validateField` (components/UserForm.js): map a field name and value
to an error message, or `""` when the value passes. `now` stands for
`new Date()` at the moment of validation. -/
def validateField (now : JSDate) (k : ErrKey) (v : FieldValue) : String :=
  match k, v with
  | .name, .str s =>
    if s == "" || (jsTrim s).length < 2 then
      "Name is required and must be at least 2 characters"
    else if s.length > 50 then "Name must be 50 characters or less"
    else if !lettersSpacesTest s then "Name should only contain letters and spaces"
    else ""
  | .aboutYou, .str s =>
    if s == "" || (jsTrim s).length < 10 then
      "About You is required and must be at least 10 characters"
    else if s.length > 250 then "About You must be 250 characters or less"
    else ""
  | .birthday, .date none => "Birthday is required"
  | .birthday, .date (some d) =>
    if now.ms < d.ms then "Birthday cannot be in the future"
    else if 120 < getFullYear now - getFullYear d then "Invalid age"
    else ""
  | .mobileNumber, .str s =>
    if s == "" || (jsTrim s).length < 10 then
      "Mobile number is required and must be at least 10 characters"
    else if !phoneTest s then "Invalid mobile number format"
    else ""
  | .email, .str s =>
    if s == "" || jsTrim s == "" then "Email is required"
    else if !emailTest s then "Invalid email format"
    else ""
  | .country, .str s =>
    if s == "" || (jsTrim s).length < 2 then
      "Country is required and must be at least 2 characters"
    else if s.length > 20 then "Country must be 20 characters or less"
    else if !lettersSpacesTest s then "Country should only contain letters and spaces"
    else ""
  | _, _ => ""

/-! ### `components/UserForm.js`: form state and submission -/

/-- The `formData` state object. -/
structure FormData where
  name : String := ""
  aboutYou : String := ""
  birthday : Option JSDate := none
  mobileNumber : String := ""
  email : String := ""
  country : String := ""
deriving DecidableEq

/-- The value `formData[key]` passed to `validateField` for each field. -/
def fieldValue (fd : FormData) : ErrKey → FieldValue
  | .name => .str fd.name
  | .aboutYou => .str fd.aboutYou
  | .birthday => .date fd.birthday
  | .mobileNumber => .str fd.mobileNumber
  | .email => .str fd.email
  | .country => .str fd.country
  | .general => .str ""

/-- `validateForm` (components/UserForm.js): the error map built by
iterating over `Object.keys(formData)` and recording each nonempty error,
in field order. -/
def validateForm (now : JSDate) (fd : FormData) : List (ErrKey × String) :=
  (fieldOrder.map fun k => (k, validateField now k (fieldValue fd k))).filter
    fun p => p.2 ≠ ""

/-- The component's UI state relevant to submission. -/
structure FormState where
  formData : FormData
  loading : Bool := false
  errors : List (ErrKey × String) := []
  success : Bool := false
  touched : List ErrKey := []
deriving DecidableEq

/-- The JSON body sent to the API: the form data with the birthday run
through `formatDateForAPI`. -/
structure ApiData where
  name : String
  aboutYou : String
  birthday : Option String
  mobileNumber : String
  email : String
  country : String
deriving DecidableEq

/-- The network call issued on a successful submit. -/
inductive NetCall where
  | create (d : ApiData)
  | update (id : Int) (d : ApiData)
deriving DecidableEq

/-- `birthday` as a `formatDateForAPI` argument: `null` or a `Date`. -/
def birthdayInput : Option JSDate → DateInput
  | none => .null
  | some d => .date d

/-- The `apiData` object prepared in `handleSubmit`. -/
def mkApiData (fd : FormData) : ApiData :=
  ⟨fd.name, fd.aboutYou, formatDateForAPI (birthdayInput fd.birthday),
    fd.mobileNumber, fd.email, fd.country⟩

/-- The synchronous prefix of `handleSubmit` (components/UserForm.js), up
to the decision whether to issue a network call: recompute all errors,
mark all fields touched, and either abort (validation errors) or set
`loading` and issue the create/update call. -/
def handleSubmit (now : JSDate) (isEditMode : Bool) (userId : Int) (st : FormState) :
    FormState × Option NetCall :=
  let formErrors := validateForm now st.formData
  let st1 := { st with errors := formErrors, touched := fieldOrder }
  if formErrors.isEmpty then
    ({ st1 with loading := true },
      some (if isEditMode then .update userId (mkApiData st.formData)
            else .create (mkApiData st.formData)))
  else
    (st1, none)

/-- JS object spread update `{...m, k: v}` on an association list: replace
the value in place when the key is present, else append the key. -/
def setKey : List (ErrKey × String) → ErrKey → String → List (ErrKey × String)
  | [], k, v => [(k, v)]
  | (k', v') :: rest, k, v =>
    if k' = k then (k, v) :: rest else (k', v') :: setKey rest k v

/-- `p` starts the list: pairwise character comparison. -/
def leadsWith : List Char → List Char → Bool
  | [], _ => true
  | _ :: _, [] => false
  | p :: ps, c :: cs => p == c && leadsWith ps cs

/-- `pat` occurs somewhere in `l`. -/
def hasSubL (pat : List Char) : List Char → Bool
  | [] => leadsWith pat []
  | c :: cs => leadsWith pat (c :: cs) || hasSubL pat cs

/-- Model of JS `s.includes(pat)`: substring containment. -/
def hasSub (s pat : String) : Bool := hasSubL pat.data s.data

/-- The generic fallback message of the submit failure handler. -/
def submitFallbackMsg (isEditMode : Bool) : String :=
  if isEditMode then "Failed to update user" else "Failed to create user"

/-- The `catch`/`finally` blocks of `handleSubmit` on an API failure with
message `msg`: clear `loading` and attach the error to `email`,
`mobileNumber` or `general` according to the message's substrings. -/
def handleSubmitFailure (isEditMode : Bool) (msg : String) (st : FormState) : FormState :=
  let errs :=
    if hasSub msg "email already exists" then
      setKey st.errors .email "A user with this email already exists"
    else if hasSub msg "mobile number" then
      setKey st.errors .mobileNumber "A user with this mobile number already exists"
    else
      setKey st.errors .general (if msg = "" then submitFallbackMsg isEditMode else msg)
  { st with loading := false, errors := errs }

/-! ## Claims -/

/-- C4: `validateUserData {} false` returns exactly the six required-field
messages, one per field in source order; `validateUserData {name:"Bob"} true`
returns no errors, since update mode checks only present fields and `"Bob"`
passes the name rule. -/
theorem validateUserData_examples :
    validateUserData {} false =
      ["Name is required and must be at least 2 characters",
       "Valid email is required",
       "About You is required and must be at least 10 characters",
       "Birthday is required",
       "Mobile number is required",
       "Country is required"] ∧
    (validateUserData {} false).length = 6 ∧
    validateUserData { name := some "Bob" } true = [] := by
  refine ⟨by decide, by decide, by decide⟩

/-- C1, counterexample to the claim as stated: for a non-success response
whose body carries the *empty-string* payload, the payload is present, yet
`handleResponse` throws the generic HTTP message rather than the payload,
because the JS `||` default also fires on the empty (falsy) string. -/
theorem handleResponse_empty_payload_counterexample :
    respOk 500 = false ∧
    (⟨500, false, some ""⟩ : ApiResponse).payload = some "" ∧
    handleResponse ⟨500, false, some ""⟩ = .error "HTTP error! status: 500" ∧
    "HTTP error! status: 500" ≠ "" := by
  refine ⟨by decide, rfl, rfl, by decide⟩

/-- C1 as amended: on a success status with `error:false` the payload is
returned; otherwise an error is thrown whose message is the payload when
the payload is a *nonempty* string, and the branch's default message when
the payload is absent **or empty** (the `||` default fires on both). -/
theorem handleResponse_amended (r : ApiResponse) :
    (respOk r.status = true → r.error = false → handleResponse r = .ok r.payload) ∧
    (respOk r.status = false → ∀ s, r.payload = some s → s ≠ "" →
      handleResponse r = .error s) ∧
    (respOk r.status = false → (r.payload = none ∨ r.payload = some "") →
      handleResponse r = .error (httpErrMsg r.status)) ∧
    (respOk r.status = true → r.error = true → ∀ s, r.payload = some s → s ≠ "" →
      handleResponse r = .error s) ∧
    (respOk r.status = true → r.error = true → (r.payload = none ∨ r.payload = some "") →
      handleResponse r = .error "An error occurred") := by
  obtain ⟨st, e, p⟩ := r
  cases e <;> rcases p with _ | s <;>
    refine ⟨?_, ?_, ?_, ?_, ?_⟩ <;> intros <;>
      simp_all [handleResponse, jsOrStr]

/-- Witness for `handleResponse_amended` at a concrete success response. -/
theorem handleResponse_amended_witness :
    handleResponse ⟨200, false, some "data"⟩ = .ok (some "data") :=
  (handleResponse_amended ⟨200, false, some "data"⟩).1 (by decide) rfl

/-! ### C3: what `validateUserData` actually checks -/

lemma nameCheck_iff (d : UserData) (u : Bool) :
    nameCheck d u = true ↔
      (u = false ∨ d.name ≠ none) ∧ ∀ s, d.name = some s → (jsTrim s).length < 2 := by
  cases u <;> cases h : d.name <;>
    simp [nameCheck, fieldChecked, minLenFails, h]

lemma emailCheck_iff (d : UserData) (u : Bool) :
    emailCheck d u = true ↔
      (u = false ∨ d.email ≠ none) ∧ ∀ s, d.email = some s → s = "" ∨ emailTest s = false := by
  cases u <;> cases h : d.email <;>
    simp [emailCheck, fieldChecked, emailFails, h]

lemma aboutYouCheck_iff (d : UserData) (u : Bool) :
    aboutYouCheck d u = true ↔
      (u = false ∨ d.aboutYou ≠ none) ∧ ∀ s, d.aboutYou = some s → (jsTrim s).length < 10 := by
  cases u <;> cases h : d.aboutYou <;>
    simp [aboutYouCheck, fieldChecked, minLenFails, h]

lemma birthdayCheck_iff (d : UserData) (u : Bool) :
    birthdayCheck d u = true ↔
      (u = false ∨ d.birthday ≠ none) ∧ ∀ s, d.birthday = some s → s = "" := by
  cases u <;> cases h : d.birthday <;>
    simp [birthdayCheck, fieldChecked, presenceFails, h]

lemma mobileCheck_iff (d : UserData) (u : Bool) :
    mobileCheck d u = true ↔
      (u = false ∨ d.mobileNumber ≠ none) ∧
        ∀ s, d.mobileNumber = some s → (jsTrim s).length < 10 := by
  cases u <;> cases h : d.mobileNumber <;>
    simp [mobileCheck, fieldChecked, minLenFails, h]

lemma countryCheck_iff (d : UserData) (u : Bool) :
    countryCheck d u = true ↔
      (u = false ∨ d.country ≠ none) ∧ ∀ s, d.country = some s → (jsTrim s).length < 2 := by
  cases u <;> cases h : d.country <;>
    simp [countryCheck, fieldChecked, minLenFails, h]

lemma mem_validateUserData_name (d : UserData) (u : Bool) :
    "Name is required and must be at least 2 characters" ∈ validateUserData d u ↔
      nameCheck d u = true := by
  unfold validateUserData
  cases h1 : nameCheck d u <;> cases h2 : emailCheck d u <;> cases h3 : aboutYouCheck d u <;>
    cases h4 : birthdayCheck d u <;> cases h5 : mobileCheck d u <;> cases h6 : countryCheck d u <;>
      simp_all

lemma mem_validateUserData_email (d : UserData) (u : Bool) :
    "Valid email is required" ∈ validateUserData d u ↔ emailCheck d u = true := by
  unfold validateUserData
  cases h1 : nameCheck d u <;> cases h2 : emailCheck d u <;> cases h3 : aboutYouCheck d u <;>
    cases h4 : birthdayCheck d u <;> cases h5 : mobileCheck d u <;> cases h6 : countryCheck d u <;>
      simp_all

lemma mem_validateUserData_aboutYou (d : UserData) (u : Bool) :
    "About You is required and must be at least 10 characters" ∈ validateUserData d u ↔
      aboutYouCheck d u = true := by
  unfold validateUserData
  cases h1 : nameCheck d u <;> cases h2 : emailCheck d u <;> cases h3 : aboutYouCheck d u <;>
    cases h4 : birthdayCheck d u <;> cases h5 : mobileCheck d u <;> cases h6 : countryCheck d u <;>
      simp_all

lemma mem_validateUserData_birthday (d : UserData) (u : Bool) :
    "Birthday is required" ∈ validateUserData d u ↔ birthdayCheck d u = true := by
  unfold validateUserData
  cases h1 : nameCheck d u <;> cases h2 : emailCheck d u <;> cases h3 : aboutYouCheck d u <;>
    cases h4 : birthdayCheck d u <;> cases h5 : mobileCheck d u <;> cases h6 : countryCheck d u <;>
      simp_all

lemma mem_validateUserData_mobile (d : UserData) (u : Bool) :
    "Mobile number is required" ∈ validateUserData d u ↔ mobileCheck d u = true := by
  unfold validateUserData
  cases h1 : nameCheck d u <;> cases h2 : emailCheck d u <;> cases h3 : aboutYouCheck d u <;>
    cases h4 : birthdayCheck d u <;> cases h5 : mobileCheck d u <;> cases h6 : countryCheck d u <;>
      simp_all

lemma mem_validateUserData_country (d : UserData) (u : Bool) :
    "Country is required" ∈ validateUserData d u ↔ countryCheck d u = true := by
  unfold validateUserData
  cases h1 : nameCheck d u <;> cases h2 : emailCheck d u <;> cases h3 : aboutYouCheck d u <;>
    cases h4 : birthdayCheck d u <;> cases h5 : mobileCheck d u <;> cases h6 : countryCheck d u <;>
      simp_all

/-- C3, counterexample to the claim as stated: a record whose name `"ab1"`
fails the letters/spaces pattern of the per-field table, while every field
satisfies `validateUserData`'s own checks — the claim says the pattern
violation must "produce a violation message in the returned list", but
`validateUserData` (which never applies the pattern, max-length or
date-range rules) returns the empty list even in create mode. -/
theorem validateUserData_pattern_counterexample :
    lettersSpacesTest "ab1" = false ∧
    validateUserData
      { name := some "ab1", email := some "a@b.com", aboutYou := some "0123456789",
        birthday := some "2000-01-01", mobileNumber := some "0123456789",
        country := some "US" } false = [] := by
  refine ⟨by decide, by decide⟩

/-- C3 as amended: a field is checked exactly when `isUpdate` is false or
the field is present, and `validateUserData` applies only its own
presence/minimum-length/email rules (name, about-you, mobile and country
trimmed-length minima, email pattern, birthday presence); a field's fixed
message is in the returned list iff the field is checked and fails that
rule. The per-field table's pattern, maximum-length and date-range rules
are not applied by `validateUserData`. -/
theorem validateUserData_amended (d : UserData) (u : Bool) :
    ("Name is required and must be at least 2 characters" ∈ validateUserData d u ↔
      (u = false ∨ d.name ≠ none) ∧ ∀ s, d.name = some s → (jsTrim s).length < 2) ∧
    ("Valid email is required" ∈ validateUserData d u ↔
      (u = false ∨ d.email ≠ none) ∧ ∀ s, d.email = some s → s = "" ∨ emailTest s = false) ∧
    ("About You is required and must be at least 10 characters" ∈ validateUserData d u ↔
      (u = false ∨ d.aboutYou ≠ none) ∧ ∀ s, d.aboutYou = some s → (jsTrim s).length < 10) ∧
    ("Birthday is required" ∈ validateUserData d u ↔
      (u = false ∨ d.birthday ≠ none) ∧ ∀ s, d.birthday = some s → s = "") ∧
    ("Mobile number is required" ∈ validateUserData d u ↔
      (u = false ∨ d.mobileNumber ≠ none) ∧
        ∀ s, d.mobileNumber = some s → (jsTrim s).length < 10) ∧
    ("Country is required" ∈ validateUserData d u ↔
      (u = false ∨ d.country ≠ none) ∧ ∀ s, d.country = some s → (jsTrim s).length < 2) :=
  ⟨(mem_validateUserData_name d u).trans (nameCheck_iff d u),
   (mem_validateUserData_email d u).trans (emailCheck_iff d u),
   (mem_validateUserData_aboutYou d u).trans (aboutYouCheck_iff d u),
   (mem_validateUserData_birthday d u).trans (birthdayCheck_iff d u),
   (mem_validateUserData_mobile d u).trans (mobileCheck_iff d u),
   (mem_validateUserData_country d u).trans (countryCheck_iff d u)⟩

/-- Witness for `validateUserData_amended`: in update mode a present
too-short name yields its message. -/
theorem validateUserData_amended_witness :
    "Name is required and must be at least 2 characters" ∈
      validateUserData { name := some "a" } true :=
  (validateUserData_amended { name := some "a" } true).1.mpr
    ⟨Or.inr (by decide), fun s hs => by injection hs with h; subst h; decide⟩

/-! ### C2: the query builder -/

lemma encodePair_data_ne_nil (p : String × JSPrim) : (encodePair p).data ≠ [] := by
  simp [encodePair, String.data_append]

lemma joinSep_amp_map_eq_empty (l : List (String × JSPrim)) :
    joinSep "&" (l.map encodePair) = "" ↔ l = [] := by
  cases l with
  | nil => simp [joinSep]
  | cons x xs =>
    cases xs with
    | nil =>
      simp only [List.map, joinSep, List.cons_ne_nil, iff_false]
      intro h
      exact encodePair_data_ne_nil x (by rw [h])
    | cons y ys =>
      simp only [List.map, joinSep, List.cons_ne_nil, iff_false]
      intro h
      have hd : (encodePair x ++ "&" ++ joinSep "&" (encodePair y :: ys.map encodePair)).data =
          ("" : String).data := by rw [h]
      rw [String.data_append, String.data_append] at hd
      exact encodePair_data_ne_nil x (List.append_eq_nil.mp (List.append_eq_nil.mp hd).1).1

/-- C2: the query builder drops exactly the entries whose value is
`undefined`, `null` or `""` (keeping the rest, including the number `0`,
in insertion order), percent-encodes and `&`-joins the surviving pairs,
prefixes `?` exactly when at least one pair survives, and returns `""`
otherwise — in particular on a fully-empty mapping. -/
theorem buildQueryString_correct (params : List (String × JSPrim)) :
    (buildQueryString params =
      if (params.filter fun p => !dropQueryVal p.2) = [] then ""
      else "?" ++ joinSep "&" ((params.filter fun p => !dropQueryVal p.2).map encodePair)) ∧
    (∀ p ∈ params.filter (fun p => !dropQueryVal p.2), p ∈ params ∧ dropQueryVal p.2 = false) ∧
    (∀ p ∈ params, dropQueryVal p.2 = false →
      p ∈ params.filter fun p => !dropQueryVal p.2) ∧
    (buildQueryString params = "" ↔ ∀ p ∈ params, dropQueryVal p.2 = true) := by
  have hmain : buildQueryString params =
      if (params.filter fun p => !dropQueryVal p.2) = [] then ""
      else "?" ++ joinSep "&" ((params.filter fun p => !dropQueryVal p.2).map encodePair) := by
    unfold buildQueryString
    by_cases h : (params.filter fun p => !dropQueryVal p.2) = []
    · rw [if_pos h, h]
      rfl
    · rw [if_neg h, if_neg]
      intro hjoin
      exact h ((joinSep_amp_map_eq_empty _).mp hjoin)
  refine ⟨hmain, ?_, ?_, ?_⟩
  · intro p hp
    have := List.mem_filter.mp hp
    simpa using this
  · intro p hp hdrop
    exact List.mem_filter.mpr ⟨hp, by simp [hdrop]⟩
  · rw [hmain]
    by_cases h : (params.filter fun p => !dropQueryVal p.2) = []
    · rw [if_pos h]
      simp only [true_iff]
      have := List.filter_eq_nil_iff.mp h
      intro p hp
      have hb := this p hp
      simpa using hb
    · rw [if_neg h]
      constructor
      · intro habs
        have : ("?" ++ joinSep "&" ((params.filter fun p => !dropQueryVal p.2).map encodePair)).data
            = ("" : String).data := by rw [habs]
        simp [String.data_append] at this
      · intro hall
        exact absurd (List.filter_eq_nil_iff.mpr fun p hp => by simp [hall p hp]) h

/-- Witness for `buildQueryString_correct` at a concrete mapping: the
`null`-valued key is dropped and the survivor is encoded behind `?`. -/
theorem buildQueryString_correct_witness :
    buildQueryString [("a", .str "x"), ("b", JSPrim.null)] = "?a=x" :=
  (buildQueryString_correct [("a", .str "x"), ("b", JSPrim.null)]).1.trans (by decide)

/-! ### C7 and C8: the API client operations -/

/-- C7: `getUserById` fails fast with `"User ID is required"` on every
falsy id — including the number `0`, the empty string, `null` and
`undefined` — and no request is issued; on a truthy id it issues a GET to
`{base}/api/users/{id}` and returns the payload unwrapped by
`handleResponse`. -/
theorem getUserById_correct (id : JSPrim) (server : HttpRequest → ApiResponse) :
    (jsPrimFalsy id = true → getUserById id = .error "User ID is required" ∧
      getUserByIdRun id server = .error "User ID is required") ∧
    (jsPrimFalsy (.num 0) = true ∧ jsPrimFalsy (.str "") = true ∧
      jsPrimFalsy .null = true ∧ jsPrimFalsy .undefined = true) ∧
    (jsPrimFalsy id = false →
      getUserById id = .ok ⟨"GET", API_BASE_URL ++ "/api/users/" ++ jsPrimToString id⟩ ∧
      ∀ r, server ⟨"GET", API_BASE_URL ++ "/api/users/" ++ jsPrimToString id⟩ = r →
        respOk r.status = true → r.error = false →
        getUserByIdRun id server = .ok r.payload) := by
  refine ⟨?_, by decide, ?_⟩
  · intro h
    refine ⟨by simp [getUserById, h], by simp [getUserByIdRun, getUserById, h]⟩
  · intro h
    refine ⟨by simp [getUserById, h], ?_⟩
    intro r hr hok herr
    simp [getUserByIdRun, getUserById, h, hr, handleResponse, hok, herr]

/-- Witness for `getUserById_correct`: the id `0` is rejected before any
request, and the id `7` yields the expected GET request. -/
theorem getUserById_correct_witness :
    getUserById (.num 0) = .error "User ID is required" ∧
    getUserById (.num 7) =
      .ok ⟨"GET", API_BASE_URL ++ "/api/users/" ++ jsPrimToString (.num 7)⟩ :=
  ⟨((getUserById_correct (.num 0) fun _ => ⟨200, false, none⟩).1 (by decide)).1,
   ((getUserById_correct (.num 7) fun _ => ⟨200, false, none⟩).2.2 (by decide)).1⟩

/-- C8: `getUsers` builds its query from exactly the six filter keys
followed by the pagination keys, where each pagination value defaults
(`page=1`, `limit=10`, `sortBy="createdAt"`, `sortOrder="DESC"`) exactly
when the given field is absent or otherwise falsy, and the operation
returns the server's payload unchanged through `handleResponse`. -/
theorem getUsers_correct (f : Filters) (p : Pagination) (server : HttpRequest → ApiResponse) :
    ((getUsersRequest f p).method = "GET") ∧
    ((getUsersRequest f p).url =
      API_BASE_URL ++ "/api/users" ++ buildQueryString (getUsersParams f p)) ∧
    (getUsersParams f p =
      [("name", f.name), ("email", f.email), ("country", f.country),
       ("fromDate", f.fromDate), ("toDate", f.toDate), ("search", f.search),
       ("page", if jsPrimFalsy p.page then .num 1 else p.page),
       ("limit", if jsPrimFalsy p.limit then .num 10 else p.limit),
       ("sortBy", if jsPrimFalsy p.sortBy then .str "createdAt" else p.sortBy),
       ("sortOrder", if jsPrimFalsy p.sortOrder then .str "DESC" else p.sortOrder)]) ∧
    (∀ r, server (getUsersRequest f p) = r → respOk r.status = true → r.error = false →
      getUsersRun f p server = .ok r.payload) := by
  refine ⟨rfl, rfl, by simp [getUsersParams, jsOr], ?_⟩
  intro r hr hok herr
  simp [getUsersRun, hr, handleResponse, hok, herr]

/-- Witness for `getUsers_correct`: with empty filters and pagination and
a success response, the server payload comes back unchanged. -/
theorem getUsers_correct_witness :
    getUsersRun {} {} (fun _ => ⟨200, false, some "users"⟩) = .ok (some "users") :=
  (getUsers_correct {} {} fun _ => ⟨200, false, some "users"⟩).2.2.2
    ⟨200, false, some "users"⟩ rfl (by decide) rfl

/-! ### C5: submission aborts on validation errors -/

/-- C5: on submit the errors are recomputed for all six fields and all
fields are marked touched; when any field's recomputed error is nonempty,
the submission aborts — no create/update call is issued — the failing
field's error is in the error map, and `loading` is untouched, so the
form stays editable. -/
theorem handleSubmit_aborts_on_error (now : JSDate) (isEditMode : Bool) (userId : Int)
    (st : FormState)
    (h : ∃ k ∈ fieldOrder, validateField now k (fieldValue st.formData k) ≠ "") :
    (handleSubmit now isEditMode userId st).2 = none ∧
    (handleSubmit now isEditMode userId st).1.errors = validateForm now st.formData ∧
    (∀ k ∈ fieldOrder, validateField now k (fieldValue st.formData k) ≠ "" →
      (k, validateField now k (fieldValue st.formData k)) ∈
        (handleSubmit now isEditMode userId st).1.errors) ∧
    (handleSubmit now isEditMode userId st).1.touched = fieldOrder ∧
    (handleSubmit now isEditMode userId st).1.loading = st.loading := by
  have hmem : ∀ k ∈ fieldOrder, validateField now k (fieldValue st.formData k) ≠ "" →
      (k, validateField now k (fieldValue st.formData k)) ∈ validateForm now st.formData := by
    intro k hk hv
    exact List.mem_filter.mpr ⟨List.mem_map.mpr ⟨k, hk, rfl⟩, by simpa using hv⟩
  have hne : validateForm now st.formData ≠ [] := by
    obtain ⟨k, hk, hv⟩ := h
    intro hnil
    have := hmem k hk hv
    rw [hnil] at this
    exact absurd this (List.not_mem_nil _)
  have hie : (validateForm now st.formData).isEmpty = false := by
    cases hvf : validateForm now st.formData with
    | nil => exact absurd hvf hne
    | cons a l => rfl
  refine ⟨by simp [handleSubmit, hie], by simp [handleSubmit, hie], ?_, by simp [handleSubmit, hie],
    by simp [handleSubmit, hie]⟩
  intro k hk hv
  have := hmem k hk hv
  simpa [handleSubmit, hie] using this

/-- Witness for `handleSubmit_aborts_on_error`: submitting with
`name = "T"` issues no network call, leaves the name error populated and
keeps the form editable. -/
theorem handleSubmit_aborts_witness :
    (handleSubmit ⟨0⟩ false 0 { formData := { name := "T" } }).2 = none ∧
    ((ErrKey.name, "Name is required and must be at least 2 characters") ∈
      (handleSubmit ⟨0⟩ false 0 { formData := { name := "T" } }).1.errors) ∧
    (handleSubmit ⟨0⟩ false 0 { formData := { name := "T" } }).1.loading = false := by
  have H := handleSubmit_aborts_on_error ⟨0⟩ false 0 { formData := { name := "T" } } (by decide)
  exact ⟨H.1, H.2.2.1 .name (by decide) (by decide), H.2.2.2.2⟩

/-! ### C6: classification of API failures -/

lemma leadsWith_iff (p l : List Char) : leadsWith p l = true ↔ ∃ r, l = p ++ r := by
  induction p generalizing l with
  | nil => simp [leadsWith]
  | cons a ps ih =>
    cases l with
    | nil => simp [leadsWith]
    | cons c cs =>
      simp only [leadsWith, Bool.and_eq_true, beq_iff_eq, ih]
      constructor
      · rintro ⟨rfl, r, rfl⟩
        exact ⟨r, rfl⟩
      · rintro ⟨r, hr⟩
        rw [List.cons_append] at hr
        injection hr with h1 h2
        exact ⟨h1.symm, r, h2⟩

lemma hasSubL_iff (p l : List Char) : hasSubL p l = true ↔ ∃ l₁ l₂, l = l₁ ++ (p ++ l₂) := by
  induction l with
  | nil =>
    simp only [hasSubL, leadsWith_iff]
    constructor
    · rintro ⟨r, hr⟩
      exact ⟨[], r, hr⟩
    · rintro ⟨l₁, l₂, h⟩
      rcases List.append_eq_nil.mp h.symm with ⟨rfl, h2⟩
      exact ⟨l₂, by simpa using h⟩
  | cons c cs ih =>
    simp only [hasSubL, Bool.or_eq_true, leadsWith_iff, ih]
    constructor
    · rintro (⟨r, hr⟩ | ⟨l₁, l₂, hr⟩)
      · exact ⟨[], r, hr⟩
      · exact ⟨c :: l₁, l₂, by rw [hr]; rfl⟩
    · rintro ⟨l₁, l₂, hr⟩
      cases l₁ with
      | nil => exact Or.inl ⟨l₂, by simpa using hr⟩
      | cons a l₁ =>
        rw [List.cons_append] at hr
        injection hr with h1 h2
        exact Or.inr ⟨l₁, l₂, h2⟩

lemma hasSub_iff (s pat : String) :
    hasSub s pat = true ↔ ∃ l₁ l₂, s.data = l₁ ++ (pat.data ++ l₂) :=
  hasSubL_iff pat.data s.data

/-- C6: after an API failure with message `msg`, `loading` is cleared and
exactly one classification fires, by substring precedence: a message
containing "email already exists" attaches the duplicate-email error to
the `email` field; otherwise a message containing "mobile number" attaches
the duplicate-mobile error to the `mobileNumber` field; otherwise the
message itself (or the generic fallback when the message is empty) is
attached under `general`. -/
theorem handleSubmitFailure_classifies (isEditMode : Bool) (msg : String) (st : FormState) :
    (handleSubmitFailure isEditMode msg st).loading = false ∧
    ((∃ l₁ l₂, msg.data = l₁ ++ (("email already exists").data ++ l₂)) →
      (handleSubmitFailure isEditMode msg st).errors =
        setKey st.errors .email "A user with this email already exists") ∧
    (¬(∃ l₁ l₂, msg.data = l₁ ++ (("email already exists").data ++ l₂)) →
      (∃ l₁ l₂, msg.data = l₁ ++ (("mobile number").data ++ l₂)) →
      (handleSubmitFailure isEditMode msg st).errors =
        setKey st.errors .mobileNumber "A user with this mobile number already exists") ∧
    (¬(∃ l₁ l₂, msg.data = l₁ ++ (("email already exists").data ++ l₂)) →
      ¬(∃ l₁ l₂, msg.data = l₁ ++ (("mobile number").data ++ l₂)) →
      (handleSubmitFailure isEditMode msg st).errors =
        setKey st.errors .general (if msg = "" then submitFallbackMsg isEditMode else msg)) := by
  refine ⟨rfl, ?_, ?_, ?_⟩
  · intro hex
    have h1 : hasSub msg "email already exists" = true := (hasSub_iff _ _).mpr hex
    simp [handleSubmitFailure, h1]
  · intro hnex hmob
    have h1 : hasSub msg "email already exists" = false := by
      cases h : hasSub msg "email already exists" with
      | false => rfl
      | true => exact absurd ((hasSub_iff _ _).mp h) hnex
    have h2 : hasSub msg "mobile number" = true := (hasSub_iff _ _).mpr hmob
    simp [handleSubmitFailure, h1, h2]
  · intro hnex hnmob
    have h1 : hasSub msg "email already exists" = false := by
      cases h : hasSub msg "email already exists" with
      | false => rfl
      | true => exact absurd ((hasSub_iff _ _).mp h) hnex
    have h2 : hasSub msg "mobile number" = false := by
      cases h : hasSub msg "mobile number" with
      | false => rfl
      | true => exact absurd ((hasSub_iff _ _).mp h) hnmob
    simp [handleSubmitFailure, h1, h2]

/-- Witness for `handleSubmitFailure_classifies`: a duplicate-mobile
server message lands on the `mobileNumber` field and clears `loading`. -/
theorem handleSubmitFailure_witness :
    (handleSubmitFailure false "duplicate mobile number" { formData := {} }).errors =
      setKey [] .mobileNumber "A user with this mobile number already exists" ∧
    (handleSubmitFailure false "duplicate mobile number" { formData := {} }).loading = false := by
  have H := handleSubmitFailure_classifies false "duplicate mobile number" { formData := {} }
  refine ⟨H.2.2.1 ?_ ((hasSub_iff _ _).mp (by decide)), H.1⟩
  intro hex
  exact absurd ((hasSub_iff _ _).mpr hex) (by decide)

/-! ### C9 and C10: the date formatter -/

lemma digitChar_isDigit (n : Nat) : (digitChar n).isDigit = true := by
  have h : n % 10 = 0 ∨ n % 10 = 1 ∨ n % 10 = 2 ∨ n % 10 = 3 ∨ n % 10 = 4 ∨
      n % 10 = 5 ∨ n % 10 = 6 ∨ n % 10 = 7 ∨ n % 10 = 8 ∨ n % 10 = 9 := by omega
  rcases h with h | h | h | h | h | h | h | h | h | h <;> (simp only [digitChar, h]; decide)

lemma digitChar_ne_T (n : Nat) : digitChar n ≠ 'T' := by
  have h : n % 10 = 0 ∨ n % 10 = 1 ∨ n % 10 = 2 ∨ n % 10 = 3 ∨ n % 10 = 4 ∨
      n % 10 = 5 ∨ n % 10 = 6 ∨ n % 10 = 7 ∨ n % 10 = 8 ∨ n % 10 = 9 := by omega
  rcases h with h | h | h | h | h | h | h | h | h | h <;> (simp only [digitChar, h]; decide)

lemma mem_pad2 (n : Nat) (c : Char) (hc : c ∈ (pad2 n).data) : ∃ m, c = digitChar m := by
  simp only [pad2, List.mem_cons, List.not_mem_nil, or_false] at hc
  rcases hc with rfl | rfl
  exacts [⟨n / 10, rfl⟩, ⟨n, rfl⟩]

lemma mem_pad4 (n : Nat) (c : Char) (hc : c ∈ (pad4 n).data) : ∃ m, c = digitChar m := by
  simp only [pad4, List.mem_cons, List.not_mem_nil, or_false] at hc
  rcases hc with rfl | rfl | rfl | rfl
  exacts [⟨n / 1000, rfl⟩, ⟨n / 100, rfl⟩, ⟨n / 10, rfl⟩, ⟨n, rfl⟩]

lemma mem_pad6 (n : Nat) (c : Char) (hc : c ∈ (pad6 n).data) : ∃ m, c = digitChar m := by
  simp only [pad6, List.mem_cons, List.not_mem_nil, or_false] at hc
  rcases hc with rfl | rfl | rfl | rfl | rfl | rfl
  exacts [⟨n / 100000, rfl⟩, ⟨n / 10000, rfl⟩, ⟨n / 1000, rfl⟩,
    ⟨n / 100, rfl⟩, ⟨n / 10, rfl⟩, ⟨n, rfl⟩]

lemma mem_yearString (y : Int) (c : Char) (hc : c ∈ (yearString y).data) :
    c = '-' ∨ c = '+' ∨ ∃ m, c = digitChar m := by
  unfold yearString at hc
  split_ifs at hc with h1 h2
  · exact Or.inr (Or.inr (mem_pad4 _ c hc))
  · rw [String.data_append] at hc
    rcases List.mem_append.mp hc with hc | hc
    · left
      simpa using hc
    · exact Or.inr (Or.inr (mem_pad6 _ c hc))
  · rw [String.data_append] at hc
    rcases List.mem_append.mp hc with hc | hc
    · right; left
      simpa using hc
    · exact Or.inr (Or.inr (mem_pad6 _ c hc))

lemma utcDateString_no_T (d : JSDate) (c : Char) (hc : c ∈ (utcDateString d).data) :
    (!(c == 'T')) = true := by
  unfold utcDateString at hc
  simp only [String.data_append, List.append_assoc, List.mem_append] at hc
  have hT : c ≠ 'T' := by
    rcases hc with hc | hc | hc | hc | hc
    · rcases mem_yearString _ c hc with h | h | ⟨m, h⟩
      · rw [h]; decide
      · rw [h]; decide
      · rw [h]; exact digitChar_ne_T m
    · have h : c = '-' := by simpa using hc
      rw [h]; decide
    · obtain ⟨m, h⟩ := mem_pad2 _ c hc
      rw [h]; exact digitChar_ne_T m
    · have h : c = '-' := by simpa using hc
      rw [h]; decide
    · obtain ⟨m, h⟩ := mem_pad2 _ c hc
      rw [h]; exact digitChar_ne_T m
  simpa using hT

lemma takeWhile_append_of_all (p : Char → Bool) (l₁ l₂ : List Char) (x : Char)
    (h : ∀ c ∈ l₁, p c = true) (hx : p x = false) :
    (l₁ ++ x :: l₂).takeWhile p = l₁ := by
  induction l₁ with
  | nil => simp [List.takeWhile_cons, hx]
  | cons a l ih =>
    have ha := h a (List.mem_cons_self a l)
    simp only [List.cons_append, List.takeWhile_cons, ha, if_true]
    rw [ih fun c hc => h c (List.mem_cons_of_mem _ hc)]

lemma jsSplitHead_toISOString (d : JSDate) : jsSplitHead (toISOString d) 'T' = utcDateString d := by
  unfold jsSplitHead toISOString
  have hT : ("T" : String).data = 'T' :: [] := rfl
  simp only [String.data_append, hT, List.append_assoc, List.cons_append, List.nil_append]
  rw [takeWhile_append_of_all _ _ _ _ (utcDateString_no_T d) (by decide)]

lemma isDateFormat_ne_empty (s : String) (h : isDateFormat s = true) : s ≠ "" := by
  intro heq
  rw [heq] at h
  exact absurd h (by decide)

lemma isDateFormat_utcDateString (d : JSDate)
    (h0 : 0 ≤ getFullYear d) (h1 : getFullYear d ≤ 9999) :
    isDateFormat (utcDateString d) = true := by
  unfold getFullYear at h0 h1
  unfold utcDateString yearString
  dsimp only
  rw [if_pos ⟨h0, h1⟩]
  unfold isDateFormat
  simp [String.data_append, pad4, pad2, digitChar_isDigit]

/-- C9: `formatDateForAPI` returns the null sentinel for an absent input,
returns any string already matching `YYYY-MM-DD` unchanged, returns the
UTC calendar date rendered `YYYY-MM-DD` for a `Date` object, and returns
the null sentinel for every other input shape, without raising an error. -/
theorem formatDateForAPI_correct :
    formatDateForAPI .undefined = none ∧
    formatDateForAPI .null = none ∧
    (∀ s, isDateFormat s = true → formatDateForAPI (.str s) = some s) ∧
    (∀ d, formatDateForAPI (.date d) = some (utcDateString d)) ∧
    (∀ s, isDateFormat s = false → formatDateForAPI (.str s) = none) ∧
    (∀ n, formatDateForAPI (.num n) = none) := by
  refine ⟨rfl, rfl, ?_, ?_, ?_, ?_⟩
  · intro s hs
    have hne : s ≠ "" := isDateFormat_ne_empty s hs
    simp [formatDateForAPI, dateInputFalsy, hne, hs]
  · intro d
    simp [formatDateForAPI, dateInputFalsy, jsSplitHead_toISOString]
  · intro s hs
    by_cases hne : s = ""
    · subst hne; rfl
    · simp [formatDateForAPI, dateInputFalsy, hne, hs]
  · intro n
    by_cases h : n = 0
    · subst h; rfl
    · simp [formatDateForAPI, dateInputFalsy, h]

/-- Witness for `formatDateForAPI_correct`: the string `"2024-03-05"` is
returned unchanged, and the `Date` for 2024-03-05 UTC renders to the same
string. -/
theorem formatDateForAPI_correct_witness :
    formatDateForAPI (.str "2024-03-05") = some "2024-03-05" ∧
    formatDateForAPI (.date ⟨1709596800000⟩) = some "2024-03-05" :=
  ⟨formatDateForAPI_correct.2.2.1 "2024-03-05" (by decide),
   (formatDateForAPI_correct.2.2.2.1 ⟨1709596800000⟩).trans (by decide)⟩

/-- C10, counterexample to the claim as stated: for the `Date` with UTC
year 10000 (timestamp 253402300800000), `toISOString` uses ECMAScript's
expanded-year format, so `formatDateForAPI` returns `"+010000-01-01"`,
which does not match `^\d{4}-\d{2}-\d{2}$`; feeding that output back in
returns the null sentinel, so the function is not idempotent. -/
theorem formatDateForAPI_not_idempotent :
    formatDateForAPI (.date ⟨253402300800000⟩) = some "+010000-01-01" ∧
    formatDateForAPI (reinject (formatDateForAPI (.date ⟨253402300800000⟩))) = none ∧
    formatDateForAPI (reinject (formatDateForAPI (.date ⟨253402300800000⟩))) ≠
      formatDateForAPI (.date ⟨253402300800000⟩) := by
  refine ⟨by decide, by decide, by decide⟩

/-- C10 as amended: `formatDateForAPI` is idempotent on every input other
than `Date` objects whose UTC year lies outside 0–9999 (for those,
`toISOString` uses the expanded six-digit year and the output fails the
`YYYY-MM-DD` pattern, so a second application yields the null sentinel).
Under that restriction every output is the null sentinel or a `YYYY-MM-DD`
string, and both are fixed points. -/
theorem formatDateForAPI_idempotent (x : DateInput)
    (h : ∀ d, x = .date d → 0 ≤ getFullYear d ∧ getFullYear d ≤ 9999) :
    formatDateForAPI (reinject (formatDateForAPI x)) = formatDateForAPI x := by
  cases x with
  | undefined => rfl
  | null => rfl
  | num n =>
    by_cases h0 : n = 0
    · subst h0; rfl
    · simp [formatDateForAPI, dateInputFalsy, h0, reinject]
  | str s =>
    by_cases h0 : s = ""
    · subst h0; rfl
    · cases hf : isDateFormat s with
      | true => simp [formatDateForAPI, dateInputFalsy, h0, hf, reinject]
      | false => simp [formatDateForAPI, dateInputFalsy, h0, hf, reinject]
  | date d =>
    obtain ⟨h0, h1⟩ := h d rfl
    have hiso := jsSplitHead_toISOString d
    have hfmt : isDateFormat (utcDateString d) = true := isDateFormat_utcDateString d h0 h1
    have hne : utcDateString d ≠ "" := isDateFormat_ne_empty _ hfmt
    simp [formatDateForAPI, dateInputFalsy, reinject, hiso, hne, hfmt]

/-- Witness for `formatDateForAPI_idempotent` at the `Date` for
2024-03-05 UTC, whose year is within the four-digit range. -/
theorem formatDateForAPI_idempotent_witness :
    formatDateForAPI (reinject (formatDateForAPI (.date ⟨1709596800000⟩))) =
      formatDateForAPI (.date ⟨1709596800000⟩) :=
  formatDateForAPI_idempotent (.date ⟨1709596800000⟩)
    (fun d hd => by injection hd with h; subst h; exact ⟨by decide, by decide⟩)
